import Mathlib

/-!
# Shallow embedding of the `real_time_vital` backend

This file embeds, as executable Lean definitions over exact rationals and
integers, the parts of the repository needed to settle the frozen claims:

* the UART frame decoder of `src/mqtt_client.py`
  (`_is_uart_format`, `_parse_uart_payload`);
* the per-second storage decision of `src/sleep_data_storage.py`
  (`_should_store`, `process_time_window`);
* the user save operation of `api/server/base/user_data_server.py`
  (`save_user_data`);
* the device update operation of `api/server/base/device_info_server.py`
  (`update_device_info`);
* the health-report save of `api/server/base/health_report_server.py`
  (`save_sleep_statistics`);
* the SMS OTP send/verify of `api/server/base/sms_verication_api.py`;
* the per-point sleep-stage classifier and range score of
  `src/sleep_report.py`;
* the data-quality analysis of `src/data_processor.py`.

Python floats are modelled as exact rationals, Python ints as `Nat`/`Int`
(with explicit signed 16-bit decoding where the code unpacks `<h`), fallible
code as `Option`/`Except`, and database / Redis effects as explicit state
passing.  Where the code computes `statistics.stdev` (a square root) only to
compare it against a threshold, the comparison is embedded in an equivalent
square-free form over the exact sample variance, noted at the definition.
-/

namespace RealTimeVital

/-! ## Rational helpers shared by several components -/

/-- `statistics.mean` over exact rationals (`sum / n`; callers guard
against the empty list exactly as in the Python code). -/
def sampleMean (xs : List ℚ) : ℚ := xs.sum / xs.length

/-- Square of `statistics.stdev` (the sample variance with Bessel's
correction, `Σ (x - mean)² / (n - 1)`): kept as the exact rational square so
the embedding stays executable; threshold comparisons against the standard
deviation are expressed by comparing this value against the squared
threshold. -/
def sampleVarSq (xs : List ℚ) : ℚ :=
  (xs.map (fun x => (x - sampleMean xs) ^ 2)).sum / ((xs.length : ℚ) - 1)

/-! ## §1  UART frame decoding (`src/mqtt_client.py`) -/

/-- The ASCII bytes of the `Odata` marker. -/
def odataMarker : List Nat := [79, 100, 97, 116, 97]

/-- The ASCII bytes of the `Bdata` marker. -/
def bdataMarker : List Nat := [66, 100, 97, 116, 97]

/-- `struct.unpack('<h', lo hi)`: little-endian signed 16-bit decode. -/
def toInt16 (lo hi : Nat) : Int :=
  let u := lo + 256 * hi
  if u < 32768 then (u : Int) else (u : Int) - 65536

/-- `MQTTVitalSignsCollector._is_uart_format`: the payload is UART-framed
when it starts with `Odata` or carries `Bdata` at offset 57. -/
def isUartFormat (payload : List Nat) : Bool :=
  (5 ≤ payload.length && payload.take 5 == odataMarker) ||
  (62 ≤ payload.length && ((payload.drop 57).take 5) == bdataMarker)

/-- The tuple produced by `_parse_uart_payload`, field by field in the order
of the Python return statement. -/
structure UartParsed where
  timestamp : ℚ
  breathBpm : ℚ
  breathCurve : List Int
  heartBpm : ℚ
  heartCurve : List Int
  targetDistance : ℚ
  signalStrength : ℚ
  validBitId : Nat
  bodyMoveEnergy : ℚ
  bodyMoveRange : ℚ
  inBed : Nat
  deviceId : String
  deriving Repr, DecidableEq

/-- `MQTTVitalSignsCollector._parse_uart_payload`: decode a 66-byte UART
frame; `none` models every `return None` / caught-exception path.  The
normalisation helper `normalize_to_minus1_1` of the Python code is dead
(its result `signal_data` is never used in the returned tuple) and is not
embedded. -/
def parseUartPayload (payload : List Nat) (topic : String) (timestamp : ℚ) :
    Option UartParsed :=
  if payload.length ≠ 66 then none
  else
    let odataPart := payload.take 57
    if odataPart.take 5 ≠ odataMarker then none
    else
      let rawPiezoValues := (List.range 25).filterMap (fun i =>
        if 5 + i * 2 + 2 ≤ 55 then
          some (toInt16 (odataPart.getD (5 + i * 2) 0) (odataPart.getD (5 + i * 2 + 1) 0))
        else none)
      let pr := toInt16 (odataPart.getD 55 0) (odataPart.getD 56 0)
      let pressureResistance : Int := if pr < 0 then 0 else if pr > 4096 then 4096 else pr
      let bdataPart := (payload.drop 57).take 9
      if bdataPart.take 5 ≠ bdataMarker then none
      else
        let statusValue := bdataPart.getD 6 0
        let heartRate := bdataPart.getD 7 0
        let breathingRateRaw := bdataPart.getD 8 0
        some
          { timestamp := timestamp
            breathBpm := (breathingRateRaw : ℚ) / 10
            breathCurve := rawPiezoValues
            heartBpm := (heartRate : ℚ)
            heartCurve := rawPiezoValues
            targetDistance := 0
            signalStrength := (pressureResistance : ℚ)
            validBitId := statusValue
            bodyMoveEnergy := 0
            bodyMoveRange := 0
            inBed := if statusValue = 0 then 1 else 0
            deviceId := ("UART_" ++ topic.replace "/" "_").toUpper }

/-- Little-endian two-byte encoding of a signed 16-bit sample (the inverse
used to build synthetic frames for the round-trip statement). -/
def encInt16 (s : Int) : List Nat :=
  let u := (s % 65536).toNat
  [u % 256, u / 256]

/-- A synthetic 66-byte UART frame: `Odata`, 25 encoded piezo samples,
two pressure bytes, `Bdata`, then sequence / status / heart / breath bytes. -/
def encodeFrame (piezo : List Int) (pLo pHi seq status hr br : Nat) : List Nat :=
  odataMarker ++ (piezo.map encInt16).flatten ++ [pLo, pHi] ++
    bdataMarker ++ [seq, status, hr, br]

/-! ## §2  Per-second storage decision (`src/sleep_data_storage.py`) -/

/-- The decision-relevant fields of `DataPoint` in `sleep_data_storage.py`
(`breath_curve` / `heart_curve` are carried through unchanged and play no
role in the decision). -/
structure SDataPoint where
  device_sn : String
  timestamp : ℚ
  breath_bpm : ℚ
  heart_bpm : ℚ
  state : Nat
  deriving Repr, DecidableEq

/-- `self.anomaly_states = {BedState.MOVEMENT, BedState.WEAK_BREATH}`. -/
def anomalyStates : List Nat := [2, 3]

/-- `self.edge_only_states = {BedState.OUT_BED}`. -/
def edgeOnlyStates : List Nat := [1]

/-- The mutable state of `SleepDataStorage` used by the decision: the
per-device `last_storage_times` map. -/
def LastStorageTimes := String → Option ℚ

/-- `SleepDataStorage._should_store`: rules 1-5 in source order (first data,
state change, anomaly state, edge-only run interior, interval for steady
regular states; a device absent from `last_storage_times` behaves as an
infinite gap). -/
def shouldStoreDecision (maxNormalInterval : ℚ) (lastStorageTimes : LastStorageTimes)
    (current : SDataPoint) (previous : Option SDataPoint) : Bool :=
  let isAnomaly := current.state ∈ anomalyStates
  let isEdgeOnly := current.state ∈ edgeOnlyStates
  match previous with
  | none => true
  | some prev =>
    if current.state ≠ prev.state then true
    else if isAnomaly then true
    else if isEdgeOnly then false
    else
      match lastStorageTimes current.device_sn with
      | none => true
      | some last => maxNormalInterval ≤ current.timestamp - last

/-- `SleepDataStorage.process_time_window` specialised to the one-per-second
feed of the consumer loop: the sorted window's last element is the current
sample and its second-to-last element is the previous sample, so the window
is passed as that (previous?, current) pair.  Returns the decision and
updates `last_storage_times` exactly when a store occurs. -/
def processTimeWindowStep (maxNormalInterval : ℚ) (lastStorageTimes : LastStorageTimes)
    (current : SDataPoint) (previous : Option SDataPoint) :
    Bool × LastStorageTimes :=
  let shouldStore := shouldStoreDecision maxNormalInterval lastStorageTimes current previous
  let lastStorageTimes' : LastStorageTimes :=
    if shouldStore then
      fun sn => if sn = current.device_sn then some current.timestamp
                else lastStorageTimes sn
    else lastStorageTimes
  (shouldStore, lastStorageTimes')

/-- Run the storage decision over a chronological list of one-per-second
samples of one device, returning the per-sample store/skip flags. -/
def runStorage (maxNormalInterval : ℚ) (lastStorageTimes : LastStorageTimes)
    (previous : Option SDataPoint) : List SDataPoint → List Bool
  | [] => []
  | current :: rest =>
    let (stored, lst') := processTimeWindowStep maxNormalInterval lastStorageTimes current previous
    stored :: runStorage maxNormalInterval lst' (some current) rest

/-- A sample of the fixed test device at second `t` in state `s`. -/
def mkSample (t : Nat) (s : Nat) : SDataPoint :=
  { device_sn := "DEV001", timestamp := (t : ℚ), breath_bpm := 15, heart_bpm := 60, state := s }

/-- The out-of-bed scenario of claim C2: states `[0, 1, 1, 1, 0]` at seconds
0-4, whose maximal out-of-bed run occupies seconds 1-3. -/
def outBedRunSamples : List SDataPoint :=
  [mkSample 0 0, mkSample 1 1, mkSample 2 1, mkSample 3 1, mkSample 4 0]

/-- The steady in-bed scenario of claim C3: 185 consecutive in-bed samples
at seconds 0-184. -/
def steadyInBedSamples : List SDataPoint :=
  (List.range 185).map (fun t => mkSample t 0)

/-! ## §3  User save (`api/server/base/user_data_server.py`) -/

/-- The fields of `ListUserData` that `save_user_data` branches on; `none`
models an absent / falsy value. -/
structure UserSaveRequest where
  user_name : Option String
  phone : Option String
  id : Option Nat
  deriving Repr, DecidableEq

/-- The database oracle behind `post_user_data` / `get_user_data`: whether
the query filtered by the given `user_name` / `id` / `phone` (an `id` filter
is dropped when `user_name` is present, as in `get_user_data`) returns a
non-empty result. -/
structure UserDb where
  query : Option String → Option Nat → Option String → Bool

/-- Observable outcome of `save_user_data`. -/
inductive UserSaveResult where
  | err400MissingUserOrPhone
  | err500PhoneExists
  | err400TooManyAttempts
  | err400IdProvided
  | err400UserExists (name : String)
  | inserted (user_name : String)
  | err500DbInsert
  deriving Repr, DecidableEq

/-- The username-generation loop of `save_user_data`: candidates are drawn
from the random stream `gen`; `counter` starts at 1, is incremented on each
collision, and the loop aborts with a 400 once `counter > 100`, i.e. after
the candidates `gen 0` … `gen 99` all collided. -/
def findFreshUsername (db : UserDb) (gen : Nat → String) : Option String :=
  (List.range 100).findSome? (fun i =>
    if db.query (some (gen i)) none none then none else some (gen i))

/-- `save_user_data`, as written: the `if not user_name` guard only wraps
the nested missing-phone 400, so the phone-duplicate check and the username
generation run unconditionally and `list_user_data.user_name` is overwritten
by the generated name before insertion.  `dbInsertOk` abstracts the final
`add_record` result. -/
def saveUserData (db : UserDb) (gen : Nat → String) (dbInsertOk : Bool)
    (req : UserSaveRequest) : UserSaveResult :=
  if req.user_name = none ∧ req.phone = none then .err400MissingUserOrPhone
  else if db.query none none req.phone then .err500PhoneExists
  else
    match findFreshUsername db gen with
    | none => .err400TooManyAttempts
    | some generated =>
      if req.id ≠ none then .err400IdProvided
      else if db.query (some generated) none req.phone then .err400UserExists generated
      else if dbInsertOk then .inserted generated
      else .err500DbInsert

/-- A database oracle with no users at all. -/
def emptyUserDb : UserDb := { query := fun _ _ _ => false }

/-! ## §4  Device update (`api/server/base/device_info_server.py`) -/

/-- A stored `DeviceInfo` row, restricted to the fields `update_device_info`
reads or writes. -/
structure DeviceRow where
  id : Nat
  device_sn : String
  device_type : String
  topic : Option String
  device_name : String
  device_location : Option String
  wifi_name : Option String
  wifi_password : Option String
  device_status : Option String
  subscription_status : Option String
  tenant_id : Option Int
  offline_time : Option ℚ
  deriving Repr, DecidableEq

/-- The fields of `ListDeviceInfo` that `update_device_info` reads; `none`
models an absent / falsy value. -/
structure DeviceUpdateRequest where
  id : Option Nat
  device_sn : Option String
  device_type : Option String
  topic : Option String
  device_name : Option String
  device_location : Option String
  wifi_name : Option String
  wifi_password : Option String
  device_status : Option String
  subscription_status : Option String
  tenant_id : Option Int
  offline_time : Option ℚ
  deriving Repr, DecidableEq

/-- The row lookup of `update_device_info` via `post_device_info` /
`get_device_info`: the condition filters on `device_sn` when supplied,
otherwise on `id` (`get_device_info` drops the `id` filter when a
`device_sn` is present); the first matching row is `result[0]`. -/
def lookupDevice (db : List DeviceRow) (req : DeviceUpdateRequest) : Option DeviceRow :=
  match req.device_sn with
  | some sn => db.find? (fun r => r.device_sn = sn)
  | none =>
    match req.id with
    | some i => db.find? (fun r => r.id = i)
    | none => db.find? (fun _ => true)

/-- Observable outcome of `update_device_info`. -/
inductive DeviceUpdateResult where
  | err400 (message : String)
  | ok
  | err500
  deriving Repr, DecidableEq

/-- The row written by a successful `update_device_info`: immutable fields
copied from the stored row, every other field taken from the request when
supplied (with the source's defaults when both are absent). -/
def applyDeviceUpdate (row : DeviceRow) (req : DeviceUpdateRequest) : DeviceRow :=
  { id := row.id
    device_sn := row.device_sn
    device_type := row.device_type
    topic := row.topic
    device_name := req.device_name.getD row.device_name
    device_location := match req.device_location with
      | some v => some v
      | none => row.device_location
    wifi_name := match req.wifi_name with
      | some v => some v
      | none => row.wifi_name
    wifi_password := match req.wifi_password with
      | some v => some v
      | none => row.wifi_password
    device_status := match req.device_status with
      | some v => some v
      | none => some (row.device_status.getD "offline")
    subscription_status := match req.subscription_status with
      | some v => some v
      | none => some (row.subscription_status.getD "pending_subscription")
    tenant_id := match req.tenant_id with
      | some v => some v
      | none => some (row.tenant_id.getD 0)
    offline_time := match req.offline_time with
      | some v => some v
      | none => row.offline_time }

/-- `update_device_info`: identifier guard, row lookup, the three
immutable-field rejections in source order, then the field merge and
`update_record` on the found row's id (`dbUpdateOk` abstracts its result).
Returns the outcome together with the database after the call. -/
def updateDeviceInfo (db : List DeviceRow) (dbUpdateOk : Bool)
    (req : DeviceUpdateRequest) : DeviceUpdateResult × List DeviceRow :=
  if req.device_sn = none ∧ req.id = none then
    (.err400 "请提供设备编号或id", db)
  else
    match lookupDevice db req with
    | none => (.err400 "不存在", db)
    | some row =>
      if req.device_type ≠ none ∧ req.device_type ≠ some row.device_type then
        (.err400 "不允许更改设备类型", db)
      else if req.device_sn ≠ none ∧ req.device_sn ≠ some row.device_sn then
        (.err400 "不允许更改设备编号", db)
      else if req.topic ≠ none ∧ req.topic ≠ row.topic then
        (.err400 "不允许更改订阅主题", db)
      else if dbUpdateOk then
        (.ok, db.map (fun r => if r.id = row.id then applyDeviceUpdate row req else r))
      else
        (.err500, db)

/-- A concrete registry row for instantiating the update theorems. -/
def sampleDeviceRow : DeviceRow :=
  { id := 1
    device_sn := "DEV001"
    device_type := "radar"
    topic := some "vital/DEV001"
    device_name := "bed-sensor"
    device_location := none
    wifi_name := none
    wifi_password := none
    device_status := none
    subscription_status := none
    tenant_id := none
    offline_time := none }

/-- An update request targeting `sampleDeviceRow` by id but supplying a
different `device_type`. -/
def deviceUpdateReqBadType : DeviceUpdateRequest :=
  { id := some 1
    device_sn := none
    device_type := some "mattress"
    topic := none
    device_name := none
    device_location := none
    wifi_name := none
    wifi_password := none
    device_status := none
    subscription_status := none
    tenant_id := none
    offline_time := none }

/-- An update request targeting `sampleDeviceRow` by id and supplying only
mutable fields. -/
def deviceUpdateReqOther : DeviceUpdateRequest :=
  { id := some 1
    device_sn := none
    device_type := none
    topic := none
    device_name := some "bedroom-sensor"
    device_location := some "room 2"
    wifi_name := some "wifi-a"
    wifi_password := some "pw"
    device_status := some "online"
    subscription_status := some "subscribed"
    tenant_id := some 5
    offline_time := some 3 }

/-! ## §5  Health-report save (`api/server/base/health_report_server.py`) -/

/-- A stored `HealthReport` row, restricted to the duplicate-check key
(`device_sn`, `sleep_start_time`); start/end instants are modelled as the
integers the ISO strings parse to. -/
structure HealthRow where
  device_sn : String
  sleep_start_time : Int
  sleep_end_time : Int
  deriving Repr, DecidableEq

/-- The fields of `HealthReportData` that drive `save_sleep_statistics`'s
control flow; `none` models an absent / falsy value. -/
structure HealthSaveRequest where
  device_sn : Option String
  sleep_start_time : Option Int
  sleep_end_time : Option Int
  deriving Repr, DecidableEq

/-- Observable outcome of `save_sleep_statistics`. -/
inductive HealthSaveResult where
  | err400MissingSn
  | err400MissingTimes
  | err400Duplicate (message : String)
  | ok
  | err500DbInsert
  deriving Repr, DecidableEq

/-- The duplicate-rejection message of `save_sleep_statistics`, carrying the
inline confirmation markup. -/
def duplicateReportMessage (sn : String) : String :=
  "<confirm content=\"确认更新设备" ++ sn ++
    "的睡眠记录\">该设备在此时间段的睡眠记录已存在，是否要更新？</confirm>"

/-- `save_sleep_statistics`: parameter guards, the
`(device_sn, sleep_start_time)` duplicate check via
`get_record_by_condition`, then a single `add_record` (abstracted by
`dbInsertOk`).  Returns the outcome and the table after the call. -/
def saveSleepStatistics (db : List HealthRow) (dbInsertOk : Bool)
    (req : HealthSaveRequest) : HealthSaveResult × List HealthRow :=
  match req.device_sn with
  | none => (.err400MissingSn, db)
  | some sn =>
    match req.sleep_start_time, req.sleep_end_time with
    | none, _ => (.err400MissingTimes, db)
    | _, none => (.err400MissingTimes, db)
    | some startT, some endT =>
      if db.any (fun r => r.device_sn = sn ∧ r.sleep_start_time = startT) then
        (.err400Duplicate (duplicateReportMessage sn), db)
      else if dbInsertOk then
        (.ok, db ++ [{ device_sn := sn, sleep_start_time := startT, sleep_end_time := endT }])
      else
        (.err500DbInsert, db)

/-! ## §6  SMS OTP service (`api/server/base/sms_verication_api.py`) -/

/-- `_validate_phone`: the anchored pattern `^1[3-9]\d{9}$`. -/
def validatePhone (s : String) : Bool :=
  match s.toList with
  | c0 :: c1 :: rest =>
    c0 = '1' && '3' ≤ c1 && c1 ≤ '9' && rest.length = 9 && rest.all Char.isDigit
  | _ => false

/-- The Redis keys the OTP service uses, per phone: whether the 60-second
`sms:limit:{phone}` key exists, and the value of the 300-second
`sms:code:{phone}` key when present. -/
structure SmsRedis where
  limitKey : String → Bool
  codeKey : String → Option String

/-- Observable outcome of `send_verification_code`. -/
inductive SmsSendResult where
  | err400BadPhone
  | err429RateLimited
  | err500SendFailed
  | ok
  deriving Repr, DecidableEq

/-- Observable outcome of `verify_code`. -/
inductive SmsVerifyResult where
  | err400BadPhone
  | err400ExpiredOrMissing
  | err400WrongCode
  | ok
  deriving Repr, DecidableEq

/-- `send_verification_code`: phone validation, `_check_send_limit` (429
when the limit key exists), the SMS gateway call (abstracted by `smsOk`),
then `_save_code_to_redis` (store the code for 300 s and set the 60-second
limit key).  Returns the outcome and the Redis state after the call. -/
def sendVerificationCode (st : SmsRedis) (smsOk : Bool) (phone code : String) :
    SmsSendResult × SmsRedis :=
  if ¬ validatePhone phone then (.err400BadPhone, st)
  else if st.limitKey phone then (.err429RateLimited, st)
  else if ¬ smsOk then (.err500SendFailed, st)
  else
    (.ok,
      { limitKey := fun p => if p = phone then true else st.limitKey p
        codeKey := fun p => if p = phone then some code else st.codeKey p })

/-- `verify_code`: phone validation, fetch of `sms:code:{phone}` (400
"expired or not found" when absent), comparison (400 "code incorrect" on
mismatch, with the key left in place), and deletion of the key on success.
Returns the outcome and the Redis state after the call. -/
def verifyCode (st : SmsRedis) (phone code : String) :
    SmsVerifyResult × SmsRedis :=
  if ¬ validatePhone phone then (.err400BadPhone, st)
  else
    match st.codeKey phone with
    | none => (.err400ExpiredOrMissing, st)
    | some stored =>
      if stored ≠ code then (.err400WrongCode, st)
      else
        (.ok, { limitKey := st.limitKey
                codeKey := fun p => if p = phone then none else st.codeKey p })

/-! ## §7  Range score (`SleepScoreCalculator._calculate_range_score`,
`src/sleep_report.py`) -/

/-- `_calculate_range_score`: clamped linear interpolation of a value inside
`[minVal, maxVal]`, optionally reversed. -/
def calculateRangeScore (value minVal maxVal maxScore : ℚ) (reverse : Bool) : ℚ :=
  if value < minVal then (if reverse then maxScore else 0)
  else if value > maxVal then (if reverse then 0 else maxScore)
  else
    let ratio := (value - minVal) / (maxVal - minVal)
    let ratio' := if reverse then 1 - ratio else ratio
    ratio' * maxScore

/-! ## §8  Per-point sleep-stage classifier (`src/sleep_report.py`) -/

/-- `curve_mean` of `_analyze_breathing_pattern`: mean of absolute values. -/
def breathMeanAbs (curve : List ℚ) : ℚ := sampleMean (curve.map (fun x => |x|))

/-- Decides `regularity > t` for the regularity of
`_analyze_breathing_pattern`, where
`regularity = max 0 (1 - stdev curve / max (breathMeanAbs curve) 1)` and a
curve of fewer than 10 points falls back to the default regularity `0.5`.
For `0 < t ≤ 1` the comparison is equivalent to the square-free test
`sampleVarSq curve < ((1 - t) * max (breathMeanAbs curve) 1) ^ 2`, which
keeps the definition executable over ℚ (`stdev ≥ 0` and the max is ≥ 1). -/
def regularityGT (curve : List ℚ) (t : ℚ) : Bool :=
  if curve.length < 10 then decide ((1 : ℚ) / 2 > t)
  else decide (sampleVarSq curve < ((1 - t) * max (breathMeanAbs curve) 1) ^ 2)

/-- Decides `regularity < t` of `_analyze_breathing_pattern`, by the same
square-free equivalence as `regularityGT` (for `0 < t ≤ 1`). -/
def regularityLT (curve : List ℚ) (t : ℚ) : Bool :=
  if curve.length < 10 then decide ((1 : ℚ) / 2 < t)
  else decide (((1 - t) * max (breathMeanAbs curve) 1) ^ 2 < sampleVarSq curve)

/-- `SleepPhaseAnalyzer._is_awake`: the hard short-circuit rule
(`heart_rate > 85 and breath_rate > 20`), the state-based rules, then the
weighted score against 0.5. -/
def isAwakePoint (hr br : ℚ) (state : Nat) : Bool :=
  if hr > 85 ∧ br > 20 then true
  else if state = 1 ∨ state = 4 then true
  else if state = 2 ∧ (hr > 75 ∨ br > 18) then true
  else
    let hrCond : ℚ := if hr > 85 then 1 else if hr > 80 then 8/10
      else if hr > 75 then 1/2 else 0
    let brCond : ℚ := if br > 22 then 1 else if br > 20 then 8/10
      else if br > 18 then 1/2 else 0
    let stateCond : ℚ := if state = 2 then 7/10 else 0
    decide (hrCond * (4/10) + brCond * (4/10) + stateCond * (2/10) ≥ 1/2)

/-- The weighted deep-sleep score of `SleepPhaseAnalyzer._is_deep_sleep`:
heart rate (weight 0.3), breath rate (0.25), breathing-pattern regularity
(0.25), state (0.2). -/
def deepSleepScore (hr br : ℚ) (state : Nat) (curve : List ℚ) : ℚ :=
  let hrCond : ℚ := if 45 ≤ hr ∧ hr ≤ 65 then 1 else if 65 < hr ∧ hr ≤ 75 then 1/2 else 0
  let brCond : ℚ := if 8 ≤ br ∧ br ≤ 14 then 1 else if 14 < br ∧ br ≤ 16 then 1/2 else 0
  let patternCond : ℚ := if regularityGT curve (7/10) then 1
    else if regularityGT curve (1/2) then 6/10 else 0
  let stateCond : ℚ := if state = 3 then 1 else if state = 0 then 7/10
    else if state = 5 then 3/10 else 0
  hrCond * (3/10) + brCond * (25/100) + patternCond * (25/100) + stateCond * (2/10)

/-- `SleepPhaseAnalyzer._is_deep_sleep`: weighted score at least 0.6. -/
def isDeepSleepPoint (hr br : ℚ) (state : Nat) (curve : List ℚ) : Bool :=
  deepSleepScore hr br state curve ≥ 6/10

/-- The weighted REM score of `SleepPhaseAnalyzer._is_rem_sleep`. -/
def remSleepScore (hr br : ℚ) (state : Nat) (curve : List ℚ) : ℚ :=
  let hrCond : ℚ := if 65 ≤ hr ∧ hr ≤ 85 then 1
    else if (60 ≤ hr ∧ hr < 65) ∨ (85 < hr ∧ hr ≤ 90) then 6/10 else 0
  let brCond : ℚ := if 14 ≤ br ∧ br ≤ 20 then 1
    else if (12 ≤ br ∧ br < 14) ∨ (20 < br ∧ br ≤ 22) then 1/2 else 0
  let patternCond : ℚ := if regularityLT curve (4/10) then 1
    else if regularityLT curve (6/10) then 7/10 else 0
  let stateCond : ℚ := if state = 0 ∨ state = 5 then 1 else if state = 2 then 1/2 else 0
  hrCond * (35/100) + brCond * (25/100) + patternCond * (25/100) + stateCond * (15/100)

/-- `SleepPhaseAnalyzer._is_rem_sleep`: weighted score at least 0.6. -/
def isRemSleepPoint (hr br : ℚ) (state : Nat) (curve : List ℚ) : Bool :=
  remSleepScore hr br state curve ≥ 6/10

/-- `SleepPhaseAnalyzer._classify_sleep_stage`: out-of-bed and heavy-object
points are awake outright, then awake / deep / REM are tried in order with
light sleep as the default. -/
def classifySleepStage (hr br : ℚ) (state : Nat) (curve : List ℚ) : String :=
  if state = 1 then "awake"
  else if state = 4 then "awake"
  else if isAwakePoint hr br state then "awake"
  else if isDeepSleepPoint hr br state curve then "deep_sleep"
  else if isRemSleepPoint hr br state curve then "rem_sleep"
  else "light_sleep"

/-! ## §9  Data-quality analysis (`src/data_processor.py`) -/

/-- A raw data dictionary as `analyze_data_quality` sees it: `none` models a
missing key or a `None` value for the three checked fields; the timestamp is
present (its absence would be a `KeyError`, outside the claims). -/
structure QPoint where
  timestamp : ℚ
  heart_bpm : Option ℚ
  breath_bpm : Option ℚ
  state : Option Int
  deriving Repr, DecidableEq

/-- Number of missing checked fields (`heart_bpm`, `breath_bpm`, `state`)
of one point. -/
def missingFieldCount (p : QPoint) : Nat :=
  (if p.heart_bpm = none then 1 else 0) +
  (if p.breath_bpm = none then 1 else 0) +
  (if p.state = none then 1 else 0)

/-- `statistics.stdev` as the fallible operation the Python code calls: a
`StatisticsError` for fewer than two data points, otherwise the exact square
of the standard deviation (kept squared to stay within ℚ; the caller's
threshold comparison is squared accordingly). -/
def pyStdevSq (xs : List ℚ) : Except String ℚ :=
  if xs.length < 2 then .error "stdev requires at least two data points"
  else .ok (sampleVarSq xs)

/-- The full quality dictionary returned by `analyze_data_quality` on a
non-empty input. -/
structure QualityReport where
  total_points : Nat
  quality_score : Int
  issues : List String
  missing_ratio : ℚ
  coverage_hours : ℚ
  deriving Repr, DecidableEq

/-- `analyze_data_quality` returns a three-key dictionary for empty input
and the full report otherwise. -/
inductive QualityResult where
  | emptyData (total_points : Nat) (quality_score : Int) (issues : List String)
  | report (r : QualityReport)
  deriving Repr, DecidableEq

/-- `DataProcessor.analyze_data_quality`: completeness check, then the
sampling-regularity check over consecutive timestamp gaps — whose
`statistics.stdev` call propagates as an `Except.error` exactly when the
gap list has fewer than two elements — then the assembled report.  The
comparison `gap_std > gap_mean * 0.5` is embedded square-free as
`gap_mean < 0 ∨ (gap_mean / 2)² < gap_varSq` (`stdev ≥ 0`). -/
def analyzeDataQuality (data : List QPoint) : Except String QualityResult :=
  if data.length = 0 then .ok (.emptyData 0 0 ["无数据"])
  else
    let total := data.length
    let missingFields := (data.map missingFieldCount).sum
    let missingRatio : ℚ := (missingFields : ℚ) / ((total : ℚ) * 3)
    let baseIssues : List String :=
      if missingRatio > 1/10 then ["数据缺失率较高"] else []
    let baseScore : Int := if missingRatio > 1/10 then 100 - 20 else 100
    let timeGaps := (data.zip data.tail).map (fun pq => pq.2.timestamp - pq.1.timestamp)
    let irregularE : Except String Bool :=
      if 1 < data.length ∧ timeGaps ≠ [] then
        (pyStdevSq timeGaps).map (fun gapVarSq =>
          let gapMean := sampleMean timeGaps
          decide (gapMean < 0 ∨ (gapMean / 2) ^ 2 < gapVarSq))
      else .ok false
    irregularE.map (fun irregular =>
      let issues := baseIssues ++ (if irregular then ["时间间隔不规律"] else [])
      let score := baseScore - (if irregular then 15 else 0)
      .report
        { total_points := total
          quality_score := max 0 score
          issues := if issues = [] then ["数据质量良好"] else issues
          missing_ratio := missingRatio
          coverage_hours :=
            if 1 < data.length then
              (((data.getLast?.map (·.timestamp)).getD 0) -
                ((data.head?.map (·.timestamp)).getD 0)) / 3600
            else 0 })

/-! ## Theorems -/

/-- C2 (evaluation at the failing input): on the run `[In-bed, Out-of-bed ×3,
In-bed]` at seconds 0-4 the decision stores seconds 0, 1 and 4 only, so the
maximal out-of-bed run (seconds 1-3) has exactly one stored sample — its
first second — and its last second (t = 3) is skipped, contradicting the
claimed first-and-last-second storage. -/
theorem outBedRun_stores_only_first_second :
    runStorage 60 (fun _ => none) none outBedRunSamples = [true, true, false, false, true] ∧
    (((runStorage 60 (fun _ => none) none outBedRunSamples).zip outBedRunSamples).filter
        (fun p => p.1 && p.2.state == 1)).length = 1 := by
  constructor <;> decide

/-- Rule 1 of `_should_store` in isolation: a sample with no predecessor is
always stored. -/
theorem shouldStore_first (mni : ℚ) (lst : LastStorageTimes) (cur : SDataPoint) :
    shouldStoreDecision mni lst cur none = true := rfl

/-- One unfolding step of `runStorage` on a non-empty sample list. -/
theorem runStorage_cons (mni : ℚ) (lst : LastStorageTimes) (prev : Option SDataPoint)
    (c : SDataPoint) (rest : List SDataPoint) :
    runStorage mni lst prev (c :: rest)
      = (processTimeWindowStep mni lst c prev).1 ::
        runStorage mni (processTimeWindowStep mni lst c prev).2 (some c) rest := rfl

/-- `processTimeWindowStep` written as an explicit pair. -/
theorem processTimeWindowStep_eval (mni : ℚ) (lst : LastStorageTimes)
    (c : SDataPoint) (prev : Option SDataPoint) :
    processTimeWindowStep mni lst c prev
      = (shouldStoreDecision mni lst c prev,
         if shouldStoreDecision mni lst c prev then
           (fun sn => if sn = c.device_sn then some c.timestamp else lst sn)
         else lst) := rfl

/-- On a steady in-bed sample the decision reduces to the interval test
against the device's last stored timestamp. -/
theorem shouldStore_steady (m s t' : Nat) (lst : LastStorageTimes)
    (hlst : lst "DEV001" = some (m : ℚ)) :
    shouldStoreDecision 60 lst (mkSample s 0) (some (mkSample t' 0))
      = decide (m + 60 ≤ s) := by
  unfold shouldStoreDecision mkSample
  simp only [anomalyStates, edgeOnlyStates, hlst]
  norm_num
  rw [le_sub_iff_add_le]
  norm_cast
  omega

/-- The steady-state invariant of the storage loop: with the device's last
store at second `m` (a multiple of 60) and the scan standing at second `s`
with `m < s ≤ m + 60`, the remaining in-bed seconds are stored exactly at
the multiples of 60. -/
theorem runStorage_steady (cnt : Nat) :
    ∀ (m s : Nat), m % 60 = 0 → m < s → s ≤ m + 60 →
    ∀ (lst : LastStorageTimes), lst "DEV001" = some (m : ℚ) →
    runStorage 60 lst (some (mkSample (s - 1) 0))
        ((List.range' s cnt).map (fun t => mkSample t 0))
      = (List.range' s cnt).map (fun t => decide (t % 60 = 0)) := by
  induction cnt with
  | zero => intro m s _ _ _ lst _; simp [runStorage]
  | succ k ih =>
    intro m s hm hms hsm lst hlst
    rw [List.range'_succ]
    simp only [List.map_cons, runStorage, processTimeWindowStep,
      shouldStore_steady m s (s - 1) lst hlst]
    by_cases hstore : m + 60 ≤ s
    · have hmod : s % 60 = 0 := by omega
      rw [decide_eq_true hstore, decide_eq_true hmod]
      congr 1
      have hnext := ih s (s + 1) hmod (Nat.lt_succ_self s) (by omega)
        (fun sn => if sn = (mkSample s 0).device_sn then some (mkSample s 0).timestamp else lst sn)
        (by simp [mkSample])
      simpa using hnext
    · have hmod : ¬ s % 60 = 0 := by omega
      rw [decide_eq_false hstore, decide_eq_false hmod]
      congr 1
      have hnext := ih m (s + 1) hm (by omega) (by omega) lst hlst
      simpa using hnext

/-- C3: a device continuously in-bed for 185 one-second samples has exactly
its seconds 0, 60, 120, 180 stored — 4 stores in total — because a steady
regular-state sample is stored only when at least 60 seconds have elapsed
since the last stored sample, tracked in the per-device map updated only on
stores. -/
theorem steadyInBed_stores_exactly_four :
    runStorage 60 (fun _ => none) none steadyInBedSamples
      = (List.range 185).map (fun t => decide (t % 60 = 0)) ∧
    (runStorage 60 (fun _ => none) none steadyInBedSamples).count true = 4 := by
  have hmain : runStorage 60 (fun _ => none) none steadyInBedSamples
      = (List.range 185).map (fun t => decide (t % 60 = 0)) := by
    unfold steadyInBedSamples
    rw [show List.range 185 = 0 :: List.range' 1 184 by
          rw [List.range_eq_range']; exact List.range'_succ 0 184 1,
        List.map_cons, List.map_cons]
    rw [runStorage_cons, processTimeWindowStep_eval, shouldStore_first]
    have h0 := runStorage_steady 184 0 1 rfl Nat.one_pos (by omega)
      (fun sn => if sn = (mkSample 0 0).device_sn then some (mkSample 0 0).timestamp
                 else none)
      (by simp [mkSample])
    exact List.cons_eq_cons.mpr ⟨by decide, h0⟩
  refine ⟨hmain, ?_⟩
  rw [hmain]
  decide

/-- C4 (evaluation at the failing input): a save request supplying
`user_name = "alice"` together with a fresh phone number is inserted under
the auto-generated username, not under `"alice"`: the generation block runs
unconditionally and overwrites the supplied name. -/
theorem saveUserData_overwrites_supplied_username :
    saveUserData emptyUserDb (fun _ => "x7k2m9qp") true
        { user_name := some "alice", phone := some "13800138000", id := none }
      = .inserted "x7k2m9qp" ∧
    UserSaveResult.inserted "x7k2m9qp" ≠ UserSaveResult.inserted "alice" := by
  constructor <;> decide

/-- C9: `_calculate_range_score` returns `maxScore` at or above `max` when
not reversed and 0 when reversed, 0 at or below `min` when not reversed and
`maxScore` when reversed, is the straight linear interpolation inside the
range, halves `maxScore` at the midpoint, and in particular maps value 80 in
`[60, 100]` with `maxScore` 10 to 5. -/
theorem calculateRangeScore_spec (minVal maxVal maxScore : ℚ) (h : minVal < maxVal) :
    (∀ v, maxVal ≤ v →
        calculateRangeScore v minVal maxVal maxScore false = maxScore ∧
        calculateRangeScore v minVal maxVal maxScore true = 0) ∧
    (∀ v, v ≤ minVal →
        calculateRangeScore v minVal maxVal maxScore false = 0 ∧
        calculateRangeScore v minVal maxVal maxScore true = maxScore) ∧
    (∀ v, minVal ≤ v → v ≤ maxVal →
        calculateRangeScore v minVal maxVal maxScore false
          = (v - minVal) / (maxVal - minVal) * maxScore) ∧
    calculateRangeScore ((minVal + maxVal) / 2) minVal maxVal maxScore false = maxScore / 2 ∧
    calculateRangeScore 80 60 100 10 false = 5 := by
  have hne : maxVal - minVal ≠ 0 := sub_ne_zero.mpr (ne_of_gt h)
  have hinterp : ∀ v, minVal ≤ v → v ≤ maxVal →
      calculateRangeScore v minVal maxVal maxScore false
        = (v - minVal) / (maxVal - minVal) * maxScore := by
    intro v h1 h2
    simp [calculateRangeScore, not_lt.mpr h1, not_lt.mpr h2]
  refine ⟨?_, ?_, hinterp, ?_, by norm_num [calculateRangeScore]⟩
  · intro v hv
    have h1 : ¬ v < minVal := not_lt.mpr (h.le.trans hv)
    rcases eq_or_lt_of_le hv with heq | hgt
    · subst heq
      have h2 : ¬ maxVal < maxVal := lt_irrefl _
      constructor <;> simp [calculateRangeScore, h1, h2, div_self hne]
    · constructor <;> simp [calculateRangeScore, h1, hgt]
  · intro v hv
    rcases lt_or_eq_of_le hv with hlt | heq
    · constructor <;> simp [calculateRangeScore, hlt]
    · subst heq
      have h1 : ¬ v < v := lt_irrefl _
      have h2 : ¬ maxVal < v := not_lt.mpr h.le
      constructor <;> simp [calculateRangeScore, h1, h2]
  · rw [hinterp _ (by linarith) (by linarith)]
    field_simp
    ring

/-- C9 witness: the theorem instantiated on the range `[60, 100]` with
`maxScore` 10. -/
theorem calculateRangeScore_spec_witness :
    calculateRangeScore 100 60 100 10 false = 10 ∧
    calculateRangeScore 80 60 100 10 false = 5 :=
  ⟨((calculateRangeScore_spec 60 100 10 (by norm_num)).1 100 le_rfl).1,
   (calculateRangeScore_spec 60 100 10 (by norm_num)).2.2.2.2⟩

/-- C5: an update request supplying a `device_sn`, `device_type` or `topic`
value different from the targeted row's stored value is answered with a 400
and leaves the registry unchanged, while a request supplying only the
mutable fields succeeds and persists exactly the supplied values (immutable
fields kept from the stored row). -/
theorem updateDeviceInfo_spec :
    (∀ (db : List DeviceRow) (dbOk : Bool) (req : DeviceUpdateRequest) (row : DeviceRow),
       lookupDevice db req = some row →
       ((∃ t, req.device_type = some t ∧ t ≠ row.device_type) ∨
        (∃ s, req.device_sn = some s ∧ s ≠ row.device_sn) ∨
        (∃ tp, req.topic = some tp ∧ some tp ≠ row.topic)) →
       (∃ msg, (updateDeviceInfo db dbOk req).1 = .err400 msg) ∧
       (updateDeviceInfo db dbOk req).2 = db) ∧
    (∀ (db : List DeviceRow) (req : DeviceUpdateRequest) (row : DeviceRow)
       (dn dl wn wp ds ss : String) (tid : Int) (ot : ℚ),
       req.id ≠ none →
       req.device_sn = none → req.device_type = none → req.topic = none →
       req.device_name = some dn → req.device_location = some dl →
       req.wifi_name = some wn → req.wifi_password = some wp →
       req.device_status = some ds → req.subscription_status = some ss →
       req.tenant_id = some tid → req.offline_time = some ot →
       lookupDevice db req = some row →
       (updateDeviceInfo db true req).1 = .ok ∧
       (updateDeviceInfo db true req).2
         = db.map (fun r => if r.id = row.id then
             { row with
               device_name := dn
               device_location := some dl
               wifi_name := some wn
               wifi_password := some wp
               device_status := some ds
               subscription_status := some ss
               tenant_id := some tid
               offline_time := some ot } else r)) := by
  constructor
  · intro db dbOk req row hlook hbad
    unfold updateDeviceInfo
    by_cases hid : req.device_sn = none ∧ req.id = none
    · simp [hid]
    · simp only [hid, if_false, hlook]
      by_cases h1 : req.device_type ≠ none ∧ req.device_type ≠ some row.device_type
      · simp [h1]
      · by_cases h2 : req.device_sn ≠ none ∧ req.device_sn ≠ some row.device_sn
        · simp [h1, h2]
        · by_cases h3 : req.topic ≠ none ∧ req.topic ≠ row.topic
          · simp [h1, h2, h3]
          · exfalso
            push_neg at h1 h2 h3
            rcases hbad with ⟨t, ht, hneq⟩ | ⟨v, hv, hneq⟩ | ⟨tp, htp, hneq⟩
            · have := h1 (by simp [ht])
              rw [ht] at this
              exact hneq (Option.some_injective _ this)
            · have := h2 (by simp [hv])
              rw [hv] at this
              exact hneq (Option.some_injective _ this)
            · have := h3 (by simp [htp])
              rw [htp] at this
              exact hneq this
  · intro db req row dn dl wn wp ds ss tid ot hid hsn htype htopic hdn hdl hwn hwp hds hss htid hot hlook
    have hcond : ¬ (req.device_sn = none ∧ req.id = none) := fun h => hid h.2
    have h1 : ¬ (req.device_type ≠ none ∧ req.device_type ≠ some row.device_type) := by
      simp [htype]
    have h2 : ¬ (req.device_sn ≠ none ∧ req.device_sn ≠ some row.device_sn) := by
      simp [hsn]
    have h3 : ¬ (req.topic ≠ none ∧ req.topic ≠ row.topic) := by
      simp [htopic]
    unfold updateDeviceInfo
    simp only [hcond, if_false, hlook, h1, h2, h3, if_true]
    refine ⟨trivial, ?_⟩
    apply List.map_congr_left
    intro r _
    by_cases hr : r.id = row.id <;>
      simp [hr, applyDeviceUpdate, hdn, hdl, hwn, hwp, hds, hss, htid, hot]

/-- C5 witness: the theorem instantiated on a one-row registry — a
`device_type` change is rejected without touching the row, and a
mutable-fields-only update succeeds. -/
theorem updateDeviceInfo_spec_witness :
    ((∃ msg, (updateDeviceInfo [sampleDeviceRow] false deviceUpdateReqBadType).1
        = .err400 msg) ∧
     (updateDeviceInfo [sampleDeviceRow] false deviceUpdateReqBadType).2
        = [sampleDeviceRow]) ∧
    (updateDeviceInfo [sampleDeviceRow] true deviceUpdateReqOther).1 = .ok :=
  ⟨updateDeviceInfo_spec.1 [sampleDeviceRow] false deviceUpdateReqBadType sampleDeviceRow
      rfl (Or.inl ⟨"mattress", rfl, by decide⟩),
   (updateDeviceInfo_spec.2 [sampleDeviceRow] deviceUpdateReqOther sampleDeviceRow
      "bedroom-sensor" "room 2" "wifi-a" "pw" "online" "subscribed" 5 3
      (by decide) rfl rfl rfl rfl rfl rfl rfl rfl rfl rfl rfl rfl).1⟩

/-- C10: on any input of exactly two points the consecutive-gap list has one
element, so the sampling-regularity check propagates the
`statistics.stdev` failure instead of being skipped, and
`analyze_data_quality` raises rather than returning a report. -/
theorem analyzeDataQuality_two_points_raises (p q : QPoint) :
    analyzeDataQuality [p, q] = .error "stdev requires at least two data points" := rfl

/-- `encInt16` always produces two bytes. -/
theorem encInt16_length (s : Int) : (encInt16 s).length = 2 := rfl

/-- Decoding the two little-endian bytes of an in-range signed 16-bit value
recovers the value. -/
theorem toInt16_encInt16 (s : Int) (h1 : -32768 ≤ s) (h2 : s < 32768) :
    toInt16 ((encInt16 s).getD 0 0) ((encInt16 s).getD 1 0) = s := by
  unfold toInt16 encInt16
  simp only [List.getD_cons_zero, List.getD_cons_succ]
  split <;> omega

/-- Reading byte pair `2i, 2i+1` of the concatenated sample encodings
decodes the `i`-th sample. -/
theorem flatten_encInt16_getD (piezo : List Int) :
    ∀ i, i < piezo.length → (∀ s ∈ piezo, -32768 ≤ s ∧ s < 32768) →
    toInt16 ((piezo.map encInt16).flatten.getD (2*i) 0)
            ((piezo.map encInt16).flatten.getD (2*i+1) 0) = piezo.getD i 0 := by
  induction piezo with
  | nil => intro i hi _; simp at hi
  | cons s ss ih =>
    intro i hi hrange
    cases i with
    | zero =>
      simp only [List.map_cons, List.flatten_cons, Nat.mul_zero]
      rw [List.getD_append _ _ _ _ (by rw [encInt16_length]; omega),
          List.getD_append _ _ _ _ (by rw [encInt16_length]; omega)]
      simpa using toInt16_encInt16 s (hrange s (by simp)).1 (hrange s (by simp)).2
    | succ j =>
      simp only [List.map_cons, List.flatten_cons]
      rw [List.getD_append_right _ _ _ _ (by rw [encInt16_length]; omega),
          List.getD_append_right _ _ _ _ (by rw [encInt16_length]; omega)]
      rw [encInt16_length]
      have e1 : 2 * (j+1) - 2 = 2 * j := by omega
      have e2 : 2 * (j+1) + 1 - 2 = 2 * j + 1 := by omega
      rw [e1, e2]
      have := ih j (by simpa using hi) (fun x hx => hrange x (by simp [hx]))
      simpa using this

/-- Indexing a list by `getD` over `range` of its length rebuilds the list. -/
theorem map_getD_range {α : Type} (l : List α) (d : α) (n : Nat) (h : l.length = n) :
    (List.range n).map (fun i => l.getD i d) = l := by
  apply List.ext_getElem
  · simp [h]
  · intro i h1 h2
    simp [List.getElem?_eq_getElem h2]

/-- `getD` below the cut-off is unaffected by `take`. -/
theorem getD_take {α : Type} (l : List α) (n k : Nat) (d : α) (h : k < n) :
    (l.take n).getD k d = l.getD k d := by
  rcases Nat.lt_or_ge k l.length with hk | hk
  · rw [List.getD_eq_getElem _ _ (by simp; omega), List.getD_eq_getElem _ _ hk]
    simp [List.getElem_take]
  · rw [List.getD_eq_default _ _ (by simp; omega), List.getD_eq_default _ _ hk]

/-- A `filterMap` whose guard holds on every element is a `map`. -/
theorem filterMap_guard_eq_map {α β : Type} (p : α → Prop) [DecidablePred p]
    (g : α → β) (l : List α) (h : ∀ a ∈ l, p a) :
    (l.filterMap (fun a => if p a then some (g a) else none)) = l.map g := by
  induction l with
  | nil => simp
  | cons x xs ih =>
    rw [List.filterMap_cons, if_pos (h x (by simp)), List.map_cons,
        ih (fun a ha => h a (by simp [ha]))]

/-- The concatenated encodings of `n` samples occupy `2n` bytes. -/
theorem flatten_encInt16_length (piezo : List Int) :
    (piezo.map encInt16).flatten.length = 2 * piezo.length := by
  induction piezo with
  | nil => simp
  | cons s ss ih =>
    simp only [List.map_cons, List.flatten_cons, List.length_append, encInt16_length, ih,
      List.length_cons]
    omega

/-- Full evaluation of the decoder on a well-formed synthetic frame. -/
theorem parseUartPayload_encodeFrame (topic : String) (ts : ℚ)
    (piezo : List Int) (pLo pHi seq status hr br : Nat)
    (hlen : piezo.length = 25)
    (hrange : ∀ s ∈ piezo, -32768 ≤ s ∧ s < 32768) :
    parseUartPayload (encodeFrame piezo pLo pHi seq status hr br) topic ts
      = some
        { timestamp := ts
          breathBpm := (br : ℚ) / 10
          breathCurve := piezo
          heartBpm := (hr : ℚ)
          heartCurve := piezo
          targetDistance := 0
          signalStrength := ((if toInt16 pLo pHi < 0 then 0
            else if toInt16 pLo pHi > 4096 then 4096
            else toInt16 pLo pHi : Int) : ℚ)
          validBitId := status
          bodyMoveEnergy := 0
          bodyMoveRange := 0
          inBed := if status = 0 then 1 else 0
          deviceId := ("UART_" ++ topic.replace "/" "_").toUpper } := by
  have hJlen : (piezo.map encInt16).flatten.length = 50 := by
    rw [flatten_encInt16_length, hlen]
  have hA : encodeFrame piezo pLo pHi seq status hr br
      = (odataMarker ++ ((piezo.map encInt16).flatten ++ [pLo, pHi]))
        ++ (bdataMarker ++ [seq, status, hr, br]) := by
    simp [encodeFrame, List.append_assoc]
  have hAlen : (odataMarker ++ ((piezo.map encInt16).flatten ++ [pLo, pHi])).length = 57 := by
    simp [odataMarker, hJlen]
  have hFlen : (encodeFrame piezo pLo pHi seq status hr br).length = 66 := by
    rw [hA, List.length_append, hAlen]
    simp [bdataMarker]
  have htake : (encodeFrame piezo pLo pHi seq status hr br).take 57
      = odataMarker ++ ((piezo.map encInt16).flatten ++ [pLo, pHi]) := by
    rw [hA]; exact List.take_left' hAlen
  have hdrop : (encodeFrame piezo pLo pHi seq status hr br).drop 57
      = bdataMarker ++ [seq, status, hr, br] := by
    rw [hA]; exact List.drop_left' hAlen
  have homarker : (odataMarker ++ ((piezo.map encInt16).flatten ++ [pLo, pHi])).take 5
      = odataMarker := List.take_left' rfl
  have hbtake9 : ((bdataMarker ++ [seq, status, hr, br]).take 9).take 5 = bdataMarker := by
    rw [List.take_take]
    exact List.take_left' rfl
  have hbgetD : ∀ k, 5 ≤ k → k < 9 →
      ((bdataMarker ++ [seq, status, hr, br]).take 9).getD k 0
        = [seq, status, hr, br].getD (k - 5) 0 := by
    intro k h5 h9
    rw [getD_take _ _ _ _ h9, List.getD_append_right _ _ _ _ (by simp [bdataMarker]; omega)]
    simp [bdataMarker]
  have hoget : ∀ j, j < 52 →
      (odataMarker ++ ((piezo.map encInt16).flatten ++ [pLo, pHi])).getD (5 + j) 0
        = ((piezo.map encInt16).flatten ++ [pLo, pHi]).getD j 0 := by
    intro j hj
    rw [List.getD_append_right _ _ _ _ (by simp [odataMarker])]
    simp [odataMarker]
  have hraw : (List.range 25).filterMap (fun i =>
      if 5 + i * 2 + 2 ≤ 55 then
        some (toInt16
          ((odataMarker ++ ((piezo.map encInt16).flatten ++ [pLo, pHi])).getD (5 + i * 2) 0)
          ((odataMarker ++ ((piezo.map encInt16).flatten ++ [pLo, pHi])).getD (5 + i * 2 + 1) 0))
      else none) = piezo := by
    rw [filterMap_guard_eq_map (fun i => 5 + i * 2 + 2 ≤ 55) _ _
      (by intro a ha; simp at ha; omega)]
    have hcong : ∀ i ∈ List.range 25,
        toInt16
          ((odataMarker ++ ((piezo.map encInt16).flatten ++ [pLo, pHi])).getD (5 + i * 2) 0)
          ((odataMarker ++ ((piezo.map encInt16).flatten ++ [pLo, pHi])).getD (5 + i * 2 + 1) 0)
        = piezo.getD i 0 := by
      intro i hi
      simp only [List.mem_range] at hi
      rw [show 5 + i * 2 + 1 = 5 + (i * 2 + 1) by omega]
      rw [hoget (i * 2) (by omega), hoget (i * 2 + 1) (by omega)]
      rw [List.getD_append _ _ _ _ (by rw [hJlen]; omega),
          List.getD_append _ _ _ _ (by rw [hJlen]; omega)]
      rw [show i * 2 = 2 * i by omega]
      exact flatten_encInt16_getD piezo i (by omega) hrange
    rw [List.map_congr_left hcong, map_getD_range piezo 0 25 hlen]
  have hp55 : (odataMarker ++ ((piezo.map encInt16).flatten ++ [pLo, pHi])).getD 55 0 = pLo := by
    rw [show (55:Nat) = 5 + 50 by rfl, hoget 50 (by omega),
        List.getD_append_right _ _ _ _ (by rw [hJlen])]
    simp [hJlen]
  have hp56 : (odataMarker ++ ((piezo.map encInt16).flatten ++ [pLo, pHi])).getD 56 0 = pHi := by
    rw [show (56:Nat) = 5 + 51 by rfl, hoget 51 (by omega),
        List.getD_append_right _ _ _ _ (by rw [hJlen]; omega)]
    simp [hJlen]
  unfold parseUartPayload
  rw [if_neg (by rw [hFlen]; simp)]
  rw [htake, hdrop]
  rw [if_neg (by rw [homarker]; simp)]
  rw [if_neg (by rw [hbtake9]; simp)]
  rw [hraw, hp55, hp56]
  rw [hbgetD 6 (by omega) (by omega), hbgetD 7 (by omega) (by omega),
      hbgetD 8 (by omega) (by omega)]
  rfl

/-- C1: the decoder recovers from every well-formed 66-byte frame exactly
the encoded heart rate (byte 64), breath rate (byte 65 over 10), status
code (byte 63) and 25 little-endian signed 16-bit piezo samples (bytes
5-54), with `in_bed = 1` iff the status code is 0; any payload that is not
exactly 66 bytes, or whose `Odata` or `Bdata` marker is corrupted, yields
no tuple. -/
theorem parseUartPayload_spec (topic : String) (ts : ℚ) :
    (∀ (piezo : List Int) (pLo pHi seq status hr br : Nat),
       piezo.length = 25 →
       (∀ s ∈ piezo, -32768 ≤ s ∧ s < 32768) →
       ∃ r, parseUartPayload (encodeFrame piezo pLo pHi seq status hr br) topic ts
              = some r ∧
            r.heartBpm = (hr : ℚ) ∧
            r.breathBpm = (br : ℚ) / 10 ∧
            r.validBitId = status ∧
            r.breathCurve = piezo ∧
            r.heartCurve = piezo ∧
            (r.inBed = 1 ↔ status = 0) ∧
            r.timestamp = ts) ∧
    (∀ payload : List Nat, payload.length ≠ 66 →
       parseUartPayload payload topic ts = none) ∧
    (∀ payload : List Nat, payload.take 5 ≠ odataMarker →
       parseUartPayload payload topic ts = none) ∧
    (∀ payload : List Nat, payload.length = 66 →
       (payload.drop 57).take 5 ≠ bdataMarker →
       parseUartPayload payload topic ts = none) := by
  refine ⟨?_, ?_, ?_, ?_⟩
  · intro piezo pLo pHi seq status hr br hlen hrange
    refine ⟨_, parseUartPayload_encodeFrame topic ts piezo pLo pHi seq status hr br hlen hrange,
      rfl, rfl, rfl, rfl, rfl, ?_, rfl⟩
    by_cases h : status = 0 <;> simp [h]
  · intro payload hlen
    unfold parseUartPayload
    rw [if_pos hlen]
  · intro payload hmark
    unfold parseUartPayload
    by_cases hlen : payload.length ≠ 66
    · rw [if_pos hlen]
    · rw [if_neg hlen]
      rw [if_pos (by rw [List.take_take, Nat.min_eq_left (by omega)]; exact hmark)]
  · intro payload hlen hmark
    unfold parseUartPayload
    rw [if_neg (by simp [hlen])]
    by_cases hod : (payload.take 57).take 5 ≠ odataMarker
    · rw [if_pos hod]
    · rw [if_neg hod]
      rw [if_pos (by rw [List.take_take, Nat.min_eq_left (by omega)]; exact hmark)]

/-- C1 witness: the theorem at a concrete frame of 25 samples of value 7,
status 0, heart rate 72 and raw breath byte 123, plus rejection of a
3-byte payload. -/
theorem parseUartPayload_spec_witness :
    (∃ r, parseUartPayload (encodeFrame (List.replicate 25 7) 1 2 0 0 72 123)
            "vital/DEV001" 0 = some r ∧
          r.heartBpm = (72 : ℚ) ∧
          r.breathBpm = (123 : ℚ) / 10 ∧
          r.validBitId = 0 ∧
          r.breathCurve = List.replicate 25 7 ∧
          r.heartCurve = List.replicate 25 7 ∧
          (r.inBed = 1 ↔ (0 : Nat) = 0) ∧
          r.timestamp = 0) ∧
    parseUartPayload [1, 2, 3] "vital/DEV001" 0 = none :=
  ⟨(parseUartPayload_spec "vital/DEV001" 0).1 (List.replicate 25 7) 1 2 0 0 72 123
      (by simp)
      (by intro s hs; rw [List.eq_of_mem_replicate hs]; omega),
   (parseUartPayload_spec "vital/DEV001" 0).2.1 [1, 2, 3] (by simp)⟩

/-- C6: saving a health report whose `(device_sn, sleep_start_time)` pair
already exists answers 400 with the inline `<confirm>` markup and leaves
the table unchanged; a fresh `sleep_start_time` for the same device inserts
exactly one row and succeeds. -/
theorem saveSleepStatistics_spec (db : List HealthRow) (sn : String)
    (startT endT : Int) (ok : Bool) :
    (db.any (fun r => r.device_sn = sn ∧ r.sleep_start_time = startT) = true →
      saveSleepStatistics db ok
          { device_sn := some sn, sleep_start_time := some startT, sleep_end_time := some endT }
        = (.err400Duplicate (duplicateReportMessage sn), db) ∧
      (∃ rest, (duplicateReportMessage sn).data = "<confirm".data ++ rest)) ∧
    (db.any (fun r => r.device_sn = sn ∧ r.sleep_start_time = startT) = false →
      saveSleepStatistics db true
          { device_sn := some sn, sleep_start_time := some startT, sleep_end_time := some endT }
        = (.ok, db ++ [{ device_sn := sn, sleep_start_time := startT, sleep_end_time := endT }]) ∧
      (saveSleepStatistics db true
          { device_sn := some sn, sleep_start_time := some startT,
            sleep_end_time := some endT }).2.length = db.length + 1) := by
  constructor
  · intro hdup
    have hdup' : ∃ x ∈ db, x.device_sn = sn ∧ x.sleep_start_time = startT := by
      simpa using hdup
    refine ⟨by simp [saveSleepStatistics, hdup'], ?_⟩
    refine ⟨(" content=\"确认更新设备".data ++
      (sn.data ++ "的睡眠记录\">该设备在此时间段的睡眠记录已存在，是否要更新？</confirm>".data)), ?_⟩
    unfold duplicateReportMessage
    rw [String.data_append, String.data_append]
    rw [show ("<confirm content=\"确认更新设备" : String).data
          = "<confirm".data ++ " content=\"确认更新设备".data by decide]
    simp [List.append_assoc]
  · intro hdup
    have hdup' : ¬ ∃ x ∈ db, x.device_sn = sn ∧ x.sleep_start_time = startT := by
      simpa using hdup
    constructor
    · simp [saveSleepStatistics, hdup']
    · simp [saveSleepStatistics, hdup']

/-- C6 witness: the theorem on a one-row table — a clashing start time is
rejected with the confirmation markup, a fresh one inserts one row. -/
theorem saveSleepStatistics_spec_witness :
    saveSleepStatistics
        [{ device_sn := "DEV001", sleep_start_time := 100, sleep_end_time := 200 }] true
        { device_sn := some "DEV001", sleep_start_time := some 100, sleep_end_time := some 300 }
      = (.err400Duplicate (duplicateReportMessage "DEV001"),
         [{ device_sn := "DEV001", sleep_start_time := 100, sleep_end_time := 200 }]) ∧
    saveSleepStatistics
        [{ device_sn := "DEV001", sleep_start_time := 100, sleep_end_time := 200 }] true
        { device_sn := some "DEV001", sleep_start_time := some 400, sleep_end_time := some 500 }
      = (.ok, [{ device_sn := "DEV001", sleep_start_time := 100, sleep_end_time := 200 },
               { device_sn := "DEV001", sleep_start_time := 400, sleep_end_time := 500 }]) :=
  ⟨((saveSleepStatistics_spec _ "DEV001" 100 300 true).1 (by decide)).1,
   ((saveSleepStatistics_spec _ "DEV001" 400 500 true).2 (by decide)).1⟩

/-- C7: a send request while the 60-second cooldown key exists is answered
429 (in particular any send immediately after a successful one), a stored
code verifies successfully at most once — success deletes the Redis key, so
re-verifying the same code fails as expired/not-found — and a mismatching
code fails as incorrect without touching the stored key. -/
theorem smsOtp_spec (st : SmsRedis) (phone code c : String)
    (hphone : validatePhone phone = true) :
    (∀ ok newCode, st.limitKey phone = true →
        (sendVerificationCode st ok phone newCode).1 = .err429RateLimited) ∧
    (∀ newCode, (sendVerificationCode st true phone newCode).1 = .ok →
        ∀ ok2 newCode2,
          (sendVerificationCode (sendVerificationCode st true phone newCode).2
              ok2 phone newCode2).1 = .err429RateLimited) ∧
    (st.codeKey phone = some code →
        (verifyCode st phone code).1 = .ok ∧
        (verifyCode st phone code).2.codeKey phone = none ∧
        (verifyCode (verifyCode st phone code).2 phone code).1 = .err400ExpiredOrMissing) ∧
    (st.codeKey phone = some code → c ≠ code →
        (verifyCode st phone c).1 = .err400WrongCode ∧
        (verifyCode st phone c).2 = st) := by
  refine ⟨?_, ?_, ?_, ?_⟩
  · intro ok newCode hlimit
    simp [sendVerificationCode, hphone, hlimit]
  · intro newCode hok ok2 newCode2
    by_cases hlimit : st.limitKey phone = true
    · simp [sendVerificationCode, hphone, hlimit] at hok
    · simp [sendVerificationCode, hphone, hlimit]
  · intro hcode
    refine ⟨?_, ?_, ?_⟩ <;> simp [verifyCode, hphone, hcode]
  · intro hcode hne
    constructor <;> simp [verifyCode, hphone, hcode, Ne.symm hne]

/-- C7 witness: the theorem at phone `13800138000` with stored code
`123456`, active cooldown, a resend attempt, a correct verification, a
repeat verification and a wrong-code attempt. -/
theorem smsOtp_spec_witness :
    (sendVerificationCode
        { limitKey := fun _ => true, codeKey := fun _ => some "123456" }
        true "13800138000" "654321").1 = .err429RateLimited ∧
    (verifyCode { limitKey := fun _ => true, codeKey := fun _ => some "123456" }
        "13800138000" "123456").1 = .ok ∧
    (verifyCode (verifyCode { limitKey := fun _ => true, codeKey := fun _ => some "123456" }
        "13800138000" "123456").2 "13800138000" "123456").1 = .err400ExpiredOrMissing ∧
    (verifyCode { limitKey := fun _ => true, codeKey := fun _ => some "123456" }
        "13800138000" "000000").1 = .err400WrongCode :=
  ⟨(smsOtp_spec _ "13800138000" "123456" "000000" (by decide)).1 true "654321" rfl,
   ((smsOtp_spec _ "13800138000" "123456" "000000" (by decide)).2.2.1 rfl).1,
   ((smsOtp_spec _ "13800138000" "123456" "000000" (by decide)).2.2.1 rfl).2.2,
   ((smsOtp_spec _ "13800138000" "123456" "000000" (by decide)).2.2.2 rfl (by decide)).1⟩

/-- The mean of a constant list is the constant. -/
theorem sampleMean_replicate (n : Nat) (c : ℚ) (hn : n ≠ 0) :
    sampleMean (List.replicate n c) = c := by
  simp [sampleMean, List.sum_replicate, nsmul_eq_mul]
  field_simp

/-- The sample variance of a constant list is zero. -/
theorem sampleVarSq_replicate (n : Nat) (c : ℚ) (hn : n ≠ 0) :
    sampleVarSq (List.replicate n c) = 0 := by
  simp [sampleVarSq, List.map_replicate, sampleMean_replicate n c hn, List.sum_replicate]

/-- A constant breath curve of at least 10 points is regular beyond every
threshold below 1. -/
theorem regularityGT_replicate (n : Nat) (c : ℚ) (hn : 10 ≤ n) {t : ℚ} (ht : t < 1) :
    regularityGT (List.replicate n c) t = true := by
  unfold regularityGT
  rw [if_neg (by simp; omega)]
  rw [sampleVarSq_replicate n c (by omega)]
  have hmax : (1 : ℚ) ≤ max (breathMeanAbs (List.replicate n c)) 1 := le_max_right _ _
  have hpos : 0 < ((1 - t) * max (breathMeanAbs (List.replicate n c)) 1) ^ 2 := by
    have h1 : (0:ℚ) < 1 - t := by linarith
    have h2 : (0:ℚ) < max (breathMeanAbs (List.replicate n c)) 1 :=
      lt_of_lt_of_le one_pos hmax
    positivity
  exact decide_eq_true hpos

/-- The hard awake short-circuit: heart rate above 85 and breath rate above
20 classify as awake whatever the state. -/
theorem isAwakePoint_hard_rule (hr br : ℚ) (s : Nat) (h1 : hr > 85) (h2 : br > 20) :
    isAwakePoint hr br s = true := by
  unfold isAwakePoint
  rw [if_pos ⟨h1, h2⟩]

/-- C8: a sample with heart rate 50, breath rate 10, state Weak-breath and
a constant breath curve of at least 10 points scores a full 1.0 ≥ 0.6 on
the weighted deep-sleep score and classifies as `deep_sleep`; every sample
with heart rate 90 and breath rate 22 classifies as `awake` regardless of
state, via the hard rule `heart_rate > 85 and breath_rate > 20`. -/
theorem classifySleepStage_spec :
    (∀ (c : ℚ) (n : Nat), 10 ≤ n →
        deepSleepScore 50 10 3 (List.replicate n c) = 1 ∧
        classifySleepStage 50 10 3 (List.replicate n c) = "deep_sleep") ∧
    (∀ (s : Nat) (curve : List ℚ), classifySleepStage 90 22 s curve = "awake") := by
  constructor
  · intro c n hn
    have hreg : regularityGT (List.replicate n c) (7/10) = true :=
      regularityGT_replicate n c hn (by norm_num)
    have hscore : deepSleepScore 50 10 3 (List.replicate n c) = 1 := by
      unfold deepSleepScore
      rw [hreg]
      norm_num
    refine ⟨hscore, ?_⟩
    unfold classifySleepStage
    have hawake : isAwakePoint 50 10 3 = false := by norm_num [isAwakePoint]
    rw [if_neg (by norm_num), if_neg (by norm_num), if_neg (by simp [hawake])]
    rw [if_pos (by simp [isDeepSleepPoint, hscore]; norm_num)]
  · intro s curve
    unfold classifySleepStage
    by_cases h1 : s = 1
    · rw [if_pos h1]
    · rw [if_neg h1]
      by_cases h4 : s = 4
      · rw [if_pos h4]
      · rw [if_neg h4,
            if_pos (by simp [isAwakePoint_hard_rule 90 22 s (by norm_num) (by norm_num)])]

/-- C8 witness: the theorem at a constant 10-point curve of value 5 and at
state Movement with an empty curve. -/
theorem classifySleepStage_spec_witness :
    classifySleepStage 50 10 3 (List.replicate 10 (5:ℚ)) = "deep_sleep" ∧
    classifySleepStage 90 22 2 [] = "awake" :=
  ⟨(classifySleepStage_spec.1 5 10 (by norm_num)).2,
   classifySleepStage_spec.2 2 []⟩

end RealTimeVital
